import Mathlib

/-!
Verification of the price/tier normalization engine of the pureleafkratom
scraper repository.  The repository holds three variants of the same design:
`test_file_finalsolution.py` (namespace `Final`), `requests_main.py`
(namespace `RM`) and `test_file_initial.py` (namespace `Initial`).
Python regular expressions are modelled as explicit character scanners over
`List Char`; `None`-dereferences (`AttributeError`) and other caught
exceptions are modelled with `Except` / `Option`; the pandas data frame is
modelled as a header plus a list of rows, a row being a total map from
column name to cell.
-/

/-- ASCII digit test, modelling the `\d` character class of the Python
regexes (the pages in scope contain only ASCII digits). -/
def isDig (c : Char) : Bool := c.isDigit

/-- Value of a digit run, modelling Python `int` applied to a captured
group of digits (leading zeros are normalized away by `int`). -/
def digitsToNat (ds : List Char) : Nat :=
  ds.foldl (fun n c => n * 10 + (c.toNat - 48)) 0

/-- Python `str.strip` on a character list: whitespace removed from both
ends. -/
def stripChars (cs : List Char) : List Char :=
  ((cs.dropWhile Char.isWhitespace).reverse.dropWhile Char.isWhitespace).reverse

/-- Python `str.strip`. -/
def pyStrip (s : String) : String := String.mk (stripChars s.toList)

/-- Python `text.split('-')[0]`: the prefix before the first dash (the
whole text when no dash is present). -/
def firstSegment (cs : List Char) : List Char := cs.takeWhile (fun c => c ≠ '-')

/-- Python `s.replace(c, '')`: every occurrence of the character removed. -/
def removeChar (c : Char) (s : String) : String :=
  String.mk (s.toList.filter (fun x => x ≠ c))

/-- One attempt of `re.search(r'Buy (\d+)', ...)` at the head of the list:
the literal `Buy ` followed by a nonempty digit run (the greedy capture). -/
def buyAt : List Char → Option Nat
  | 'B' :: 'u' :: 'y' :: ' ' :: rest =>
    let ds := rest.takeWhile isDig
    if ds = [] then none else some (digitsToNat ds)
  | _ => none

/-- `re.search(r'Buy (\d+)', text)`: first position where the pattern
matches, scanning left to right. -/
def searchBuy : List Char → Option Nat
  | [] => none
  | c :: rest =>
    match buyAt (c :: rest) with
    | some n => some n
    | none => searchBuy rest

/-- One attempt of `re.search(r'\((\d+)%\)', ...)` at the head: an opening
parenthesis, a nonempty digit run, then `%)`.  Backtracking cannot produce
any other match at this position, so maximal munch is exact. -/
def percentIntAt : List Char → Option Nat
  | '(' :: rest =>
    let ds := rest.takeWhile isDig
    if ds = [] then none
    else
      match rest.dropWhile isDig with
      | '%' :: ')' :: _ => some (digitsToNat ds)
      | _ => none
  | _ => none

/-- `re.search(r'\((\d+)%\)', text)` (the integer-only percentage pattern
of `requests_main.py` and `test_file_initial.py`). -/
def searchPercentInt : List Char → Option Nat
  | [] => none
  | c :: rest =>
    match percentIntAt (c :: rest) with
    | some n => some n
    | none => searchPercentInt rest

/-- One attempt of `re.search(r'\((\d+\.?\d*)%\)', ...)` at the head,
already composed with `math.floor(float(...))`: the floored value of a
decimal literal `d+[.d*]` is the value of its integer part.  The `float`
conversion is modelled as exact on the decimal literal (double rounding of
literals with more than sixteen significant digits is out of scope for
the storefront labels). -/
def percentFracAt : List Char → Option Nat
  | '(' :: rest =>
    let ds := rest.takeWhile isDig
    if ds = [] then none
    else
      match rest.dropWhile isDig with
      | '.' :: rest2 =>
        match rest2.dropWhile isDig with
        | '%' :: ')' :: _ => some (digitsToNat ds)
        | _ => none
      | '%' :: ')' :: _ => some (digitsToNat ds)
      | _ => none
  | _ => none

/-- `re.search(r'\((\d+\.?\d*)%\)', text)` composed with floor (the
fractional percentage pattern of `test_file_finalsolution.py`). -/
def searchPercentFrac : List Char → Option Nat
  | [] => none
  | c :: rest =>
    match percentFracAt (c :: rest) with
    | some n => some n
    | none => searchPercentFrac rest

/-- One attempt of `re.search(r'\$(\d+\.?\d*)', ...)` at the head: a dollar
sign, a nonempty digit run, an optional dot with a further (possibly empty)
digit run; the captured text is returned. -/
def dollarAt : List Char → Option (List Char)
  | '$' :: rest =>
    let ds := rest.takeWhile isDig
    if ds = [] then none
    else
      match rest.dropWhile isDig with
      | '.' :: rest2 => some (ds ++ '.' :: rest2.takeWhile isDig)
      | _ => some ds
  | _ => none

/-- `re.search(r'\$(\d+\.?\d*)', text)`: the first currency amount, as the
captured text. -/
def searchDollar : List Char → Option String
  | [] => none
  | c :: rest =>
    match dollarAt (c :: rest) with
    | some ds => some (String.mk ds)
    | none => searchDollar rest

/-- `re.match(r'\d+', s)` followed by `int(...)`: the leading digit run of
the text, absent when the text does not begin with a digit. -/
def matchLeadingDigits (cs : List Char) : Option Nat :=
  let ds := cs.takeWhile isDig
  if ds = [] then none else some (digitsToNat ds)

/-- Equality-based prefix test of a character list (needle against hay). -/
def leadsWith : List Char → List Char → Bool
  | [], _ => true
  | _ :: _, [] => false
  | a :: as, b :: bs => a = b && leadsWith as bs

/-- Python substring containment `needle in hay`. -/
def containsSub (needle : List Char) : List Char → Bool
  | [] => leadsWith needle []
  | c :: t => leadsWith needle (c :: t) || containsSub needle t

/-- Python `','.join(...)` over a list of strings. -/
def joinComma : List String → String
  | [] => ""
  | [s] => s
  | s :: rest => s ++ "," ++ joinComma rest

/-- A Python value reaching the extractors from a pandas cell: a string, a
non-negative integer, the float NaN placed by pandas for a missing cell, or
`None`. -/
inductive PyVal
  | pstr (s : String)
  | pint (n : Nat)
  | pnan
  | pnone
deriving DecidableEq

/-- Python `str(...)` on the modelled values. -/
def pyStr : PyVal → String
  | PyVal.pstr s => s
  | PyVal.pint n => toString n
  | PyVal.pnan => "nan"
  | PyVal.pnone => "None"

/-- A `div.tier-button` element of the parsed page: its `data-min`
attribute and the trimmed-source texts of its `div.quantity-range` and
`div.discount-info` children (absent when the child is missing). -/
structure TierButton where
  dataMin : Option String
  quantityRange : Option String
  discountInfo : Option String
deriving DecidableEq

/-- The parsed page (the BeautifulSoup object), restricted to the
selectors the scrapers query: presence of the `div.tier-buttons`
container, the `div.tier-button` elements in document order, and the raw
texts of the three price spans (`span.price.price--non-sale`,
`span.price.price--withoutTax.price--main`, and the same with the
`_hasSale` class), absent when the span is missing. -/
structure Soup where
  tiersDiv : Bool
  tierButtons : List TierButton
  nonSale : Option String
  mainPrice : Option String
  mainPriceHasSale : Option String

/-- Outcome of `requests.get(url, timeout=10)` plus
`response.raise_for_status()` plus `BeautifulSoup(...)`: a parsed page, a
`requests.RequestException`, or an exception raised while parsing the
response body. -/
inductive FetchResult
  | ok (soup : Soup)
  | reqErr (msg : String)
  | parseErr (msg : String)

/-- The dictionary returned by the final scraper: keys `regular_price`,
`sales_price`, `tier_string`. -/
structure ScrapeRecord where
  regular_price : Option String
  sales_price : Option String
  tier_string : Option String
deriving DecidableEq

/-- One tier entry as the scrapers build it: the quantity and the discount
text of the form `N%`. -/
structure Tier where
  quantity : Nat
  discount : String
deriving DecidableEq

/-- The f-string `f"{t['quantity']}:{t['discount'].replace('%', '')}"`. -/
def tierToken (t : Tier) : String :=
  toString t.quantity ++ ":" ++ removeChar '%' t.discount

/-- `",".join(...)` over the tier tokens, as both batch scrapers build the
tier string. -/
def tierJoin (l : List Tier) : String := joinComma (l.map tierToken)

/-- Message of the `AttributeError` raised by `.text` on a missing
element (`select_one` returned `None`); the exact Python wording is not
load-bearing, only which handler receives it. -/
def attrErr : String := "AttributeError"

/-- `elem.text` where `elem` may be `None`: raises `AttributeError` on a
missing element. -/
def textOf : Option String → Except String String
  | some t => Except.ok t
  | none => Except.error attrErr

/-- A spreadsheet cell: missing (NaN) or a string value. -/
inductive Cell
  | na
  | s (v : String)
deriving DecidableEq

/-- A data-frame row: a total map from column name to cell. -/
def Row := String → Cell

/-- Write one cell of a row (`df.loc[index, col] = v`). -/
def setCell (r : Row) (c : String) (v : Cell) : Row :=
  fun x => if x = c then v else r x

/-- Write an optional string into a cell: Python `None` is stored as a
missing value by pandas. -/
def setOptCell (r : Row) (c : String) (v : Option String) : Row :=
  setCell r c (match v with | some t => Cell.s t | none => Cell.na)

/-- The data frame: column order (header) and the rows. -/
structure Df where
  header : List String
  rows : List Row

/-- The pandas value of a cell as seen by the extractors. -/
def cellPy : Cell → PyVal
  | Cell.na => PyVal.pnan
  | Cell.s v => PyVal.pstr v

/-- Index list `[s, s+1, ..., s+n-1]`, modelling iteration of the row loop
by positional index. -/
def idxFrom (s : Nat) : Nat → List Nat
  | 0 => []
  | n + 1 => s :: idxFrom (s + 1) n

/-- The row loop of `process_excel_file`: each iteration rewrites only the
row at the current index (the data frame is mutated in place, one row at a
time). -/
def batchFold (f : Row → Row) (rows : List Row) : List Row :=
  (idxFrom 0 rows.length).foldl
    (fun rs i =>
      match rs[i]? with
      | some r => rs.set i (f r)
      | none => rs)
    rows

/-- Python truthiness of an optional string (`None` and the empty string
are falsy). -/
def truthyS : Option String → Bool
  | some s => s ≠ ""
  | none => false

/-- `soup.select_one(f'div.tier-button[data-min="{q}"]')`: the first tier
button whose `data-min` attribute equals the decimal rendering of the
requested quantity. -/
def selectByDataMin (soup : Soup) (q : Nat) : Option TierButton :=
  soup.tierButtons.find? (fun tb => tb.dataMin = some (toString q))

namespace Final

/-- `extract_tier_quantity` of `test_file_finalsolution.py` (lines 50-53). -/
def extract_tier_quantity (text : String) : Option Nat := searchBuy text.toList

/-- `extract_discount_info` of `test_file_finalsolution.py` (lines 70-85):
the fractional percentage pattern, with `str(math.floor(float(g))) + '%'`
on a match and `None` otherwise. -/
def extract_discount_info (text : String) : Option String :=
  match searchPercentFrac text.toList with
  | some n => some (toString n ++ "%")
  | none => none

/-- `extract_quantity_from_name` of `test_file_finalsolution.py` (lines
88-95): `re.match(r'\d+', str(name))`; the `str` conversion makes the
`except TypeError` handler unreachable for the modelled values. -/
def extract_quantity_from_name (name : PyVal) : Option Nat :=
  matchLeadingDigits (pyStr name).toList

/-- `extract_price_amount` of `test_file_finalsolution.py` (lines 98-107):
empty text gives `None`; otherwise the text before the first dash is
stripped and searched for a currency amount. -/
def extract_price_amount (text : String) : Option String :=
  if text = "" then none
  else searchDollar (stripChars (firstSegment text.toList))

/-- Body of the `try` block of `get_regular_and_sales_price` (lines
18-43): dereferencing a missing span raises `AttributeError`, which the
surrounding handler turns into `(None, None)`. -/
def grasp_body (soup : Soup) : Except String (Option String × Option String) :=
  match soup.nonSale with
  | none => Except.error attrErr
  | some check0 =>
    if pyStrip check0 ≠ "" then
      match soup.nonSale with
      | none => Except.error attrErr
      | some rp0 =>
        match soup.mainPriceHasSale with
        | none => Except.error attrErr
        | some sp0 =>
          let rp := pyStrip rp0
          let sp := pyStrip sp0
          let rp2 := if rp ≠ "" then extract_price_amount rp else some rp
          let sp2 := if sp ≠ "" then extract_price_amount sp else some sp
          Except.ok (rp2, sp2)
    else
      match soup.mainPrice with
      | none => Except.error attrErr
      | some mp0 =>
        let rp := pyStrip mp0
        let rp2 := if rp ≠ "" then extract_price_amount rp else some rp
        Except.ok (rp2, none)

/-- `get_regular_and_sales_price` of `test_file_finalsolution.py` (lines
10-47): any exception inside the body degrades to `(None, None)`. -/
def get_regular_and_sales_price (soup : Soup) : Option String × Option String :=
  match grasp_body soup with
  | Except.ok p => p
  | Except.error _ => (none, none)

/-- `scrape_no_tiers` of `test_file_finalsolution.py` (lines 110-119). -/
def scrape_no_tiers (soup : Soup) : ScrapeRecord :=
  let p := get_regular_and_sales_price soup
  ⟨p.1, p.2, some "No tiers present"⟩

/-- The loop body of `build_tier_list` (lines 129-157) as a per-element
outcome: the tier entry appended for this button, if any.  A button
missing either child, or whose texts fail extraction or are falsy, yields
nothing. -/
def tierEntryOf (tb : TierButton) : Option Tier :=
  match tb.quantityRange, tb.discountInfo with
  | some qt, some dt =>
    match extract_tier_quantity qt, extract_discount_info dt with
    | some q, some d => if q ≠ 0 && d ≠ "" then some ⟨q, d⟩ else none
    | _, _ => none
  | _, _ => none

/-- The `for` loop of `build_tier_list` (lines 129-157), appending to the
accumulated `tier_list` exactly as the Python loop does. -/
def buildLoop : List TierButton → List Tier → List Tier
  | [], acc => acc
  | tb :: rest, acc =>
    match tb.quantityRange, tb.discountInfo with
    | some qt, some dt =>
      match extract_tier_quantity qt, extract_discount_info dt with
      | some q, some d =>
        if q ≠ 0 && d ≠ "" then buildLoop rest (acc ++ [⟨q, d⟩])
        else buildLoop rest acc
      | _, _ => buildLoop rest acc
    | _, _ => buildLoop rest acc

/-- `build_tier_list` of `test_file_finalsolution.py` (lines 122-160). -/
def build_tier_list (soup : Soup) : List Tier := buildLoop soup.tierButtons []

/-- `scrape_tier_data` of `test_file_finalsolution.py` (lines 163-205):
the two `except` arms return the error-encoding records; the
`quantity_from_excel` argument is accepted but never used by this
variant. -/
def scrape_tier_data (f : FetchResult) (quantity_from_excel : Option Nat) : ScrapeRecord :=
  match f with
  | FetchResult.reqErr e => ⟨none, none, some ("Request error: " ++ e)⟩
  | FetchResult.parseErr e => ⟨none, none, some ("Parsing error: " ++ e)⟩
  | FetchResult.ok soup =>
    if soup.tiersDiv = false then scrape_no_tiers soup
    else
      let tier_list := build_tier_list soup
      let tier_string : Option String :=
        if tier_list ≠ [] then some (tierJoin tier_list) else none
      let p := get_regular_and_sales_price soup
      ⟨p.1, p.2, tier_string⟩

/-- The column-update `try` block of `process_excel_file` (lines 248-259):
promotional precedence first, then the tier string is always written.  The
body is total in the model, so the handler arm never fires. -/
def updateRow (row : Row) (sc : ScrapeRecord) : Row :=
  let row1 :=
    if truthyS sc.sales_price && truthyS sc.regular_price then
      setCell
        (setCell row "PLK Regular price"
          (Cell.s (removeChar '$' (sc.sales_price.getD ""))))
        "PLK Sale price" (Cell.s (removeChar '$' (sc.regular_price.getD "")))
    else if truthyS sc.regular_price then
      setCell row "PLK Regular price"
        (Cell.s (removeChar '$' (sc.regular_price.getD "")))
    else row
  setOptCell row1 "PLK Percentage Tiered Prices" sc.tier_string

/-- `row.get('Name', '')` of line 227. -/
def nameVal (header : List String) (row : Row) : PyVal :=
  if header.contains "Name" then cellPy (row "Name") else PyVal.pstr ""

/-- One iteration of the row loop of `process_excel_file` (lines 223-270):
URL from the first column, quantity from the Name column, the empty-URL
sentinel, the domain filter, then scrape and update. -/
def processRow (fetch : String → FetchResult) (header : List String) (row : Row) : Row :=
  let quantity := extract_quantity_from_name (nameVal header row)
  match row (header.getD 0 "") with
  | Cell.na =>
    setCell (setCell row "PLK Regular price" (Cell.s "No URL provided"))
      "PLK Percentage Tiered Prices" (Cell.s "No URL provided")
  | Cell.s url =>
    if url = "" then
      setCell (setCell row "PLK Regular price" (Cell.s "No URL provided"))
        "PLK Percentage Tiered Prices" (Cell.s "No URL provided")
    else if containsSub "pureleafkratom".toList url.toList = false then row
    else updateRow row (scrape_tier_data (fetch url) quantity)

/-- `process_excel_file` of `test_file_finalsolution.py` (lines 208-274):
the row loop over the data frame, followed by the single final write
(modelled as returning the mutated frame). -/
def process_excel_file (fetch : String → FetchResult) (df : Df) : Df :=
  Df.mk df.header (batchFold (processRow fetch df.header) df.rows)

end Final

/-- The value returned by `scrape_tier_data` of `requests_main.py`: one of
the result dictionaries (keys `regular_price`, `tier_string`, and --- only
on the no-tiers path --- `non_sale_price`), or a plain error string from
the `except` arms. -/
inductive RMResult
  | record (regular_price : Option String) (tier_string : Option String)
      (non_sale_price : Option String)
  | errStr (msg : String)
deriving DecidableEq

/-- The `regular_price` component of a record result (absent for an error
string); used only to state theorems. -/
def RMResult.regularOf : RMResult → Option String
  | RMResult.record rp _ _ => rp
  | RMResult.errStr _ => none

namespace RM

/-- `extract_tier_number` of `requests_main.py` (lines 10-14). -/
def extract_tier_number (line : String) : Option Nat := searchBuy line.toList

/-- `extract_discount_per_tier` of `requests_main.py` (lines 17-25): an
integer parenthesized percentage gives `(str(int(g)) + '%', True)`; any
other text is returned stripped with the flag `False` (the regular-price
fallback marker). -/
def extract_discount_per_tier (line : String) : String × Bool :=
  match searchPercentInt line.toList with
  | some n => (toString n ++ "%", true)
  | none => (pyStrip line, false)

/-- `extract_quantity_number_from_the_name_column_at_the_beginning` of
`requests_main.py` (lines 28-35): `re.match` raises `TypeError` on a
non-string argument, which the handler turns into `None`. -/
def extract_quantity_number_from_the_name_column_at_the_beginning
    (raw : PyVal) : Option Nat :=
  match raw with
  | PyVal.pstr s => matchLeadingDigits s.toList
  | _ => none

/-- The tier loop of `scrape_tier_data` (lines 66-87), threading the
growing tier list and the fallback `regular_price`: a row whose discount
text carries no integer percentage overwrites the fallback and is skipped
via `continue`; a percentage row is appended when quantity and discount
are both truthy. -/
def rmLoop : List TierButton → List Tier → Option String → List Tier × Option String
  | [], acc, rp => (acc, rp)
  | tb :: rest, acc, rp =>
    match tb.quantityRange, tb.discountInfo with
    | some qt, some dt =>
      let quantity := extract_tier_number qt
      let d := extract_discount_per_tier dt
      if d.2 = false then rmLoop rest acc (some d.1)
      else
        match quantity with
        | some q =>
          if q ≠ 0 && d.1 ≠ "" then rmLoop rest (acc ++ [⟨q, d.1⟩]) rp
          else rmLoop rest acc rp
        | none => rmLoop rest acc rp
    | _, _ => rmLoop rest acc rp

/-- The quantity-targeted override `try` block (lines 95-105, repeated at
108-116): a missing matching button or a missing discount child raises
`AttributeError`, caught locally, leaving the default; a matching button
whose discount text is found replaces the default with the searched
currency amount --- which is `None` when the text carries no amount. -/
def quantity_override (soup : Soup) (q : Nat) (default : Option String) : Option String :=
  match selectByDataMin soup q with
  | none => default
  | some tb =>
    match tb.discountInfo with
    | none => default
    | some txt => searchDollar txt.toList

/-- `scrape_tier_data` of `requests_main.py` (lines 37-121). -/
def scrape_tier_data (f : FetchResult) (quantity_from_excel : Option Nat) : RMResult :=
  match f with
  | FetchResult.reqErr e => RMResult.errStr ("Requests error: " ++ e)
  | FetchResult.parseErr e => RMResult.errStr ("Parsing error: " ++ e)
  | FetchResult.ok soup =>
    if soup.tiersDiv = false then
      match soup.mainPrice with
      | none => RMResult.errStr ("Parsing error: " ++ attrErr)
      | some t =>
        let rpu := pyStrip t
        let nonSale := soup.nonSale.map pyStrip
        let rp := pyStrip (String.mk (firstSegment rpu.toList))
        RMResult.record (some rp) (some "No tiers present") nonSale
    else
      let built := rmLoop soup.tierButtons [] none
      let rp :=
        match quantity_from_excel with
        | some n => if n ≠ 0 then quantity_override soup n built.2 else built.2
        | none => built.2
      if built.1 ≠ [] then RMResult.record rp (some (tierJoin built.1)) none
      else RMResult.record rp none none

/-- The column-update `try` block of `process_excel_file` (lines 163-171):
subscripting an error string raises `TypeError` and `.replace` on `None`
raises `AttributeError`, both before any write; either way the handler
leaves the row untouched and the loop continues. -/
def applyScrape (row : Row) (res : RMResult) : Row :=
  match res with
  | RMResult.errStr _ => row
  | RMResult.record rp ts _ =>
    match rp with
    | none => row
    | some r =>
      setOptCell (setCell row "PLK Regular price" (Cell.s (removeChar '$' r)))
        "PLK Percentage Tiered Prices" ts

/-- One iteration of the row loop of `process_excel_file` (lines 141-176):
the empty-URL sentinel is written positionally (`df.iloc[index, 8]` and
`df.iloc[index, 9]`, the columns the source comments name I and J); the
Name cell is read with `row.loc['Name']`. -/
def processRow (fetch : String → FetchResult) (header : List String) (row : Row) : Row :=
  let quantity :=
    extract_quantity_number_from_the_name_column_at_the_beginning (cellPy (row "Name"))
  match row (header.getD 0 "") with
  | Cell.na =>
    setCell (setCell row (header.getD 8 "") (Cell.s "No URL provided"))
      (header.getD 9 "") (Cell.s "No URL provided")
  | Cell.s url =>
    if url = "" then
      setCell (setCell row (header.getD 8 "") (Cell.s "No URL provided"))
        (header.getD 9 "") (Cell.s "No URL provided")
    else if containsSub "pureleafkratom".toList url.toList = false then row
    else applyScrape row (scrape_tier_data (fetch url) quantity)

/-- `process_excel_file` of `requests_main.py` (lines 125-179). -/
def process_excel_file (fetch : String → FetchResult) (df : Df) : Df :=
  Df.mk df.header (batchFold (processRow fetch df.header) df.rows)

end RM

namespace Initial

/-- `ProductPricing` of `test_file_initial.py` (lines 22-32). -/
structure ProductPricing where
  regular_price : Option String
  tier_string : Option String
  non_sale_price : Option String
  error_message : Option String
deriving DecidableEq

/-- `PriceExtractor.extract_price_amount` of `test_file_initial.py` (lines
67-71): a bare currency search, with no empty-check and no dash split. -/
def extract_price_amount (text : String) : Option String := searchDollar text.toList

/-- `_extract_regular_price_without_tiers` of `test_file_initial.py`
(lines 91-116): a missing main price span is classified as an error
record; otherwise the price before the first dash is kept and the non-sale
span is read if present. -/
def extract_regular_price_without_tiers (soup : Soup) : ProductPricing :=
  match soup.mainPrice with
  | none => ⟨none, none, none, some "No main price found"⟩
  | some t =>
    let raw := pyStrip t
    let rp := pyStrip (String.mk (firstSegment raw.toList))
    ⟨some rp, some "No tiers present", soup.nonSale.map pyStrip, none⟩

/-- `_get_price_for_quantity` of `test_file_initial.py` (lines 148-162):
every miss (no matching button, no discount child, no amount in the text)
degrades to `None`; exceptions are caught locally. -/
def get_price_for_quantity (soup : Soup) (q : Nat) : Option String :=
  match selectByDataMin soup q with
  | none => none
  | some tb =>
    match tb.discountInfo with
    | none => none
    | some txt => extract_price_amount txt

end Initial

/-- A run of characters all satisfying the predicate is taken whole from
the front of an append. -/
theorem takeWhile_all_append (p : Char → Bool) :
    ∀ (xs ys : List Char), (∀ c ∈ xs, p c = true) →
      (xs ++ ys).takeWhile p = xs ++ ys.takeWhile p := by
  intro xs ys h
  induction xs with
  | nil => simp
  | cons a as ih =>
    have ha : p a = true := h a (by simp)
    have has : ∀ c ∈ as, p c = true := fun c hc => h c (by simp [hc])
    simp [List.takeWhile_cons, ha, ih has]

/-- A run of characters all satisfying the predicate is dropped whole from
the front of an append. -/
theorem dropWhile_all_append (p : Char → Bool) :
    ∀ (xs ys : List Char), (∀ c ∈ xs, p c = true) →
      (xs ++ ys).dropWhile p = ys.dropWhile p := by
  intro xs ys h
  induction xs with
  | nil => simp
  | cons a as ih =>
    have ha : p a = true := h a (by simp)
    have has : ∀ c ∈ as, p c = true := fun c hc => h c (by simp [hc])
    simp [List.dropWhile_cons, ha, ih has]

/-- The integer-percentage attempt fails at any position not starting with
an opening parenthesis. -/
theorem percentIntAt_ne_paren (c : Char) (rest : List Char) (h : c ≠ '(') :
    percentIntAt (c :: rest) = none := by
  rw [percentIntAt.eq_def]
  split
  · rename_i heq
    exact absurd (List.head_eq_of_cons_eq heq.symm).symm h
  · rfl

/-- The fractional-percentage attempt fails at any position not starting
with an opening parenthesis. -/
theorem percentFracAt_ne_paren (c : Char) (rest : List Char) (h : c ≠ '(') :
    percentFracAt (c :: rest) = none := by
  rw [percentFracAt.eq_def]
  split
  · rename_i heq
    exact absurd (List.head_eq_of_cons_eq heq.symm).symm h
  · rfl

/-- Text with no opening parenthesis matches the integer percentage
pattern nowhere. -/
theorem searchPercentInt_none (cs : List Char) (h : ∀ c ∈ cs, c ≠ '(') :
    searchPercentInt cs = none := by
  induction cs with
  | nil => rfl
  | cons c rest ih =>
    have hc : c ≠ '(' := h c (by simp)
    have hrest : ∀ x ∈ rest, x ≠ '(' := fun x hx => h x (by simp [hx])
    simp [searchPercentInt, percentIntAt_ne_paren c rest hc, ih hrest]

/-- Text with no opening parenthesis matches the fractional percentage
pattern nowhere. -/
theorem searchPercentFrac_none (cs : List Char) (h : ∀ c ∈ cs, c ≠ '(') :
    searchPercentFrac cs = none := by
  induction cs with
  | nil => rfl
  | cons c rest ih =>
    have hc : c ≠ '(' := h c (by simp)
    have hrest : ∀ x ∈ rest, x ≠ '(' := fun x hx => h x (by simp [hx])
    simp [searchPercentFrac, percentFracAt_ne_paren c rest hc, ih hrest]

/-- A digit is not an opening parenthesis. -/
theorem isDig_ne_paren (c : Char) (h : isDig c = true) : c ≠ '(' := by
  intro hc
  subst hc
  simp [isDig, Char.isDigit] at h

/-- The tier-building loop of the final scraper preserves document order
and duplicates: it is the accumulated `filterMap` of the per-button
outcome. -/
theorem buildLoop_eq_filterMap :
    ∀ (tbs : List TierButton) (acc : List Tier),
      Final.buildLoop tbs acc = acc ++ tbs.filterMap Final.tierEntryOf := by
  intro tbs
  induction tbs with
  | nil => intro acc; simp [Final.buildLoop]
  | cons tb rest ih =>
    intro acc
    rcases hq : tb.quantityRange with _ | qt
    · simp [Final.buildLoop, Final.tierEntryOf, hq, List.filterMap_cons, ih]
    · rcases hd : tb.discountInfo with _ | dt
      · simp [Final.buildLoop, Final.tierEntryOf, hq, hd, List.filterMap_cons, ih]
      · rcases he : Final.extract_tier_quantity qt with _ | q
        · simp [Final.buildLoop, Final.tierEntryOf, hq, hd, he, List.filterMap_cons, ih]
        · rcases hf : Final.extract_discount_info dt with _ | d
          · simp [Final.buildLoop, Final.tierEntryOf, hq, hd, he, hf, List.filterMap_cons, ih]
          · simp only [Final.buildLoop, Final.tierEntryOf, hq, hd, he, hf, List.filterMap_cons]
            split
            · simp [ih, List.append_assoc]
            · simp [ih]

/-- Stepping the row loop: indices to the left of the current one are
already final, so the loop over a data frame is the row-wise map. -/
theorem batchFold_go (f : Row → Row) :
    ∀ (todo done : List Row),
      (idxFrom done.length todo.length).foldl
        (fun rs i =>
          match rs[i]? with
          | some r => rs.set i (f r)
          | none => rs)
        (done ++ todo) = done ++ todo.map f := by
  intro todo
  induction todo with
  | nil => intro done; simp [idxFrom]
  | cons r rest ih =>
    intro done
    have h1 : (done ++ r :: rest)[done.length]? = some r := by
      rw [List.getElem?_append_right (le_refl _)]
      simp
    have h2 : (done ++ r :: rest).set done.length (f r) = (done ++ [f r]) ++ rest := by
      rw [List.set_append]
      simp
    have h3 : done.length + 1 = (done ++ [f r]).length := by simp
    simp only [List.length_cons, idxFrom, List.foldl_cons, h1, h2]
    rw [h3, ih (done ++ [f r])]
    simp

/-- The in-place row loop equals the row-wise map: each output row is a
function of the input row at the same index. -/
theorem batchFold_eq_map (f : Row → Row) (rows : List Row) :
    batchFold f rows = rows.map f := by
  have h := batchFold_go f rows []
  simpa [batchFold] using h

/-- Reading a cell other than the one just written is unchanged. -/
theorem setCell_other (r : Row) (c : String) (v : Cell) (x : String) (h : x ≠ c) :
    setCell r c v x = r x := by
  simp [setCell, h]

/-- The final-variant column update touches only the three designated
output columns. -/
theorem updateRow_frame (row : Row) (sc : ScrapeRecord) (col : String)
    (h1 : col ≠ "PLK Regular price") (h2 : col ≠ "PLK Sale price")
    (h3 : col ≠ "PLK Percentage Tiered Prices") :
    Final.updateRow row sc col = row col := by
  simp only [Final.updateRow, setOptCell]
  rw [setCell_other _ _ _ _ h3]
  split
  · rw [setCell_other _ _ _ _ h2, setCell_other _ _ _ _ h1]
  · split
    · rw [setCell_other _ _ _ _ h1]
    · rfl

/-- One final-variant row iteration touches only the three designated
output columns. -/
theorem fs_processRow_frame (fetch : String → FetchResult) (header : List String)
    (row : Row) (col : String)
    (h1 : col ≠ "PLK Regular price") (h2 : col ≠ "PLK Sale price")
    (h3 : col ≠ "PLK Percentage Tiered Prices") :
    Final.processRow fetch header row col = row col := by
  simp only [Final.processRow]
  rcases row (header.getD 0 "") with _ | url
  · dsimp only
    rw [setCell_other _ _ _ _ h3, setCell_other _ _ _ _ h1]
  · dsimp only
    split
    · rw [setCell_other _ _ _ _ h3, setCell_other _ _ _ _ h1]
    · split
      · rfl
      · exact updateRow_frame _ _ _ h1 h2 h3

/-- The requests-main column update touches only the two columns it
writes. -/
theorem applyScrape_frame (row : Row) (res : RMResult) (col : String)
    (h1 : col ≠ "PLK Regular price") (h3 : col ≠ "PLK Percentage Tiered Prices") :
    RM.applyScrape row res col = row col := by
  rcases res with ⟨rp, ts, ns⟩ | msg
  · rcases rp with _ | r
    · rfl
    · simp only [RM.applyScrape, setOptCell]
      rw [setCell_other _ _ _ _ h3, setCell_other _ _ _ _ h1]
  · rfl

/-- One requests-main row iteration touches only the designated output
columns, provided positional columns 8 and 9 are the designated ones (as
the source comments state for the input workbook). -/
theorem rm_processRow_frame (fetch : String → FetchResult) (header : List String)
    (row : Row) (col : String)
    (h8 : header.getD 8 "" = "PLK Regular price")
    (h9 : header.getD 9 "" = "PLK Percentage Tiered Prices")
    (h1 : col ≠ "PLK Regular price") (h3 : col ≠ "PLK Percentage Tiered Prices") :
    RM.processRow fetch header row col = row col := by
  simp only [RM.processRow, h8, h9]
  rcases row (header.getD 0 "") with _ | url
  · dsimp only
    rw [setCell_other _ _ _ _ h3, setCell_other _ _ _ _ h1]
  · dsimp only
    split
    · rw [setCell_other _ _ _ _ h3, setCell_other _ _ _ _ h1]
    · split
      · rfl
      · exact applyScrape_frame _ _ _ h1 h3

/-- Claim C1: on a non-tiered page whose non-sale element reads `$13.49`
and whose sale-flagged main element reads `$4.89`, the price resolver
returns regular 13.49 and sales 4.89, and the batch update writes the
promotional 4.89 into the regular-price output column and the original
13.49 into the sale-price output column (the inverted precedence). -/
theorem claim_C1 (soup : Soup) (row : Row) (q : Option Nat)
    (ht : soup.tiersDiv = false)
    (hn : soup.nonSale = some "$13.49")
    (hm : soup.mainPriceHasSale = some "$4.89") :
    Final.get_regular_and_sales_price soup = (some "13.49", some "4.89")
    ∧ Final.updateRow row (Final.scrape_tier_data (FetchResult.ok soup) q)
        "PLK Regular price" = Cell.s "4.89"
    ∧ Final.updateRow row (Final.scrape_tier_data (FetchResult.ok soup) q)
        "PLK Sale price" = Cell.s "13.49" := by
  obtain ⟨td, tbs, ns, mp, mph⟩ := soup
  dsimp only at ht hn hm
  subst ht hn hm
  exact ⟨rfl, rfl, rfl⟩

/-- Witness for claim C1 at a concrete page and row. -/
theorem claim_C1_witness :
    Final.get_regular_and_sales_price
        (Soup.mk false [] (some "$13.49") (some "$4.89") (some "$4.89"))
      = (some "13.49", some "4.89")
    ∧ Final.updateRow (fun _ => Cell.na)
        (Final.scrape_tier_data
          (FetchResult.ok (Soup.mk false [] (some "$13.49") (some "$4.89") (some "$4.89")))
          none)
        "PLK Regular price" = Cell.s "4.89"
    ∧ Final.updateRow (fun _ => Cell.na)
        (Final.scrape_tier_data
          (FetchResult.ok (Soup.mk false [] (some "$13.49") (some "$4.89") (some "$4.89")))
          none)
        "PLK Sale price" = Cell.s "13.49" :=
  claim_C1 _ _ none rfl rfl rfl

/-- Claim C2 counterexample: with the final variant, a row whose fetch
fails has the transport-error description written into the tier-schedule
output column, replacing its prior value --- the claim "writes nothing
into the price and tier-schedule output columns" is false on that
variant. -/
theorem claim_C2_cex :
    Final.processRow (fun _ => FetchResult.reqErr "boom") ["URL"]
        (fun c => if c = "URL" then Cell.s "https://pureleafkratom.com/p" else Cell.s "old")
        "PLK Percentage Tiered Prices" = Cell.s "Request error: boom"
    ∧ (fun c => if c = "URL" then Cell.s "https://pureleafkratom.com/p" else Cell.s "old")
        "PLK Percentage Tiered Prices" = Cell.s "old" := ⟨rfl, rfl⟩

/-- Claim C2 amended: on an Assembler outcome of status Error, the final
variant leaves the two price columns unchanged but overwrites the
tier-schedule column with the error description, and processing continues;
the requests-main variant writes nothing at all (its row update raises on
the error value and the exception is caught). -/
theorem claim_C2 :
    ∀ (row : Row) (q : Option Nat) (e : String),
      (Final.scrape_tier_data (FetchResult.reqErr e) q).regular_price = none
      ∧ (Final.scrape_tier_data (FetchResult.reqErr e) q).sales_price = none
      ∧ Final.updateRow row (Final.scrape_tier_data (FetchResult.reqErr e) q)
          "PLK Regular price" = row "PLK Regular price"
      ∧ Final.updateRow row (Final.scrape_tier_data (FetchResult.reqErr e) q)
          "PLK Sale price" = row "PLK Sale price"
      ∧ Final.updateRow row (Final.scrape_tier_data (FetchResult.reqErr e) q)
          "PLK Percentage Tiered Prices" = Cell.s ("Request error: " ++ e)
      ∧ Final.updateRow row (Final.scrape_tier_data (FetchResult.parseErr e) q)
          "PLK Percentage Tiered Prices" = Cell.s ("Parsing error: " ++ e)
      ∧ RM.applyScrape row (RM.scrape_tier_data (FetchResult.reqErr e) q) = row
      ∧ RM.applyScrape row (RM.scrape_tier_data (FetchResult.parseErr e) q) = row :=
  fun _ _ _ => ⟨rfl, rfl, rfl, rfl, rfl, rfl, rfl, rfl⟩

/-- Claim C3 counterexample: with the final variant, a non-tiered page
with no primary price element does not resolve to an error --- it yields
the resolved non-tiered record with both prices absent, contradicting the
claim that the Assembler resolves to status Error. -/
theorem claim_C3_cex :
    Final.scrape_tier_data (FetchResult.ok (Soup.mk false [] none none none)) none
      = ScrapeRecord.mk none none (some "No tiers present") := rfl

/-- Claim C3 amended: on a non-tiered page missing the primary price
element, the initial variant classifies the page as an error with the
message "No main price found", while the final variant swallows the
lookup failure and returns a resolved non-tiered record with both prices
absent. -/
theorem claim_C3 (soup : Soup) (q : Option Nat)
    (hm : soup.mainPrice = none) (hh : soup.mainPriceHasSale = none)
    (ht : soup.tiersDiv = false) :
    Initial.extract_regular_price_without_tiers soup
      = Initial.ProductPricing.mk none none none (some "No main price found")
    ∧ Final.scrape_tier_data (FetchResult.ok soup) q
      = ScrapeRecord.mk none none (some "No tiers present") := by
  obtain ⟨td, tbs, ns, mp, mph⟩ := soup
  dsimp only at hm hh ht
  subst hm hh ht
  refine ⟨rfl, ?_⟩
  rcases ns with _ | t
  · rfl
  · have hg : Final.grasp_body (Soup.mk false tbs (some t) none none)
        = Except.error attrErr := by
      by_cases hc : pyStrip t ≠ ""
      · simp [Final.grasp_body, hc]
      · simp [Final.grasp_body, hc]
    simp [Final.scrape_tier_data, Final.scrape_no_tiers,
      Final.get_regular_and_sales_price, hg]

/-- Witness for claim C3 at a concrete page with a non-sale element but no
main price element. -/
theorem claim_C3_witness :
    Initial.extract_regular_price_without_tiers (Soup.mk false [] (some "$5") none none)
      = Initial.ProductPricing.mk none none none (some "No main price found")
    ∧ Final.scrape_tier_data (FetchResult.ok (Soup.mk false [] (some "$5") none none)) none
      = ScrapeRecord.mk none none (some "No tiers present") :=
  claim_C3 _ none rfl rfl rfl

/-- Claim C4 counterexample: with the final variant, a tiered page whose
only tier row has the non-percentage label `$12.99` yields a record whose
regular price is absent --- the raw label is not recorded as a fallback
marker and the regular price does not default to it. -/
theorem claim_C4_cex :
    Final.scrape_tier_data
        (FetchResult.ok
          (Soup.mk true [TierButton.mk none (some "Buy 5") (some "$12.99")] none none none))
        none
      = ScrapeRecord.mk none none none := rfl

/-- Claim C4 amended: in the requests-main variant, a tier row whose
discount label has no parenthesized percentage is not appended; its
stripped label text becomes the regular-price fallback (the last such row
wins), and with no requested quantity the tiered-page regular price is
exactly the loop's fallback; in the final variant such a row is skipped
entirely and nothing is recorded. -/
theorem claim_C4 (tb : TierButton) (rest : List TierButton) (acc : List Tier)
    (rp0 : Option String) (qt lbl : String)
    (hq : tb.quantityRange = some qt) (hd : tb.discountInfo = some lbl)
    (hInt : searchPercentInt lbl.toList = none)
    (hFrac : searchPercentFrac lbl.toList = none) :
    RM.rmLoop (tb :: rest) acc rp0 = RM.rmLoop rest acc (some (pyStrip lbl))
    ∧ Final.buildLoop (tb :: rest) acc = Final.buildLoop rest acc
    ∧ ∀ (soup : Soup), soup.tiersDiv = true →
        RMResult.regularOf (RM.scrape_tier_data (FetchResult.ok soup) none)
          = (RM.rmLoop soup.tierButtons [] none).2 := by
  have hInt2 : searchPercentInt lbl.data = none := hInt
  have hFrac2 : searchPercentFrac lbl.data = none := hFrac
  refine ⟨?_, ?_, ?_⟩
  · simp [RM.rmLoop, hq, hd, RM.extract_discount_per_tier, hInt2]
  · rcases he : Final.extract_tier_quantity qt with _ | q <;>
      simp [Final.buildLoop, hq, hd, Final.extract_discount_info, hFrac2, he]
  · intro soup hs
    rcases hb : RM.rmLoop soup.tierButtons [] none with ⟨tiers, rp⟩
    by_cases ht : tiers = []
    · simp [RM.scrape_tier_data, hs, hb, ht, RMResult.regularOf]
    · simp [RM.scrape_tier_data, hs, hb, ht, RMResult.regularOf]

/-- Witness for claim C4 at the concrete fallback row `Buy 5` / `$12.99`. -/
theorem claim_C4_witness :
    RM.rmLoop [TierButton.mk none (some "Buy 5") (some "$12.99")] [] none
      = RM.rmLoop [] [] (some (pyStrip "$12.99"))
    ∧ Final.buildLoop [TierButton.mk none (some "Buy 5") (some "$12.99")] []
      = Final.buildLoop [] []
    ∧ RMResult.regularOf
        (RM.scrape_tier_data
          (FetchResult.ok
            (Soup.mk true [TierButton.mk none (some "Buy 5") (some "$12.99")] none none none))
          none)
      = (RM.rmLoop [TierButton.mk none (some "Buy 5") (some "$12.99")] [] none).2 := by
  have h := claim_C4 (TierButton.mk none (some "Buy 5") (some "$12.99")) [] [] none
    "Buy 5" "$12.99" rfl rfl (by decide) (by decide)
  exact ⟨h.1, h.2.1, h.2.2 _ rfl⟩

/-- Claim C5 counterexample: with the requests-main variant, a tiered page
whose fallback default is `$9.99` and whose requested quantity 10 matches
a tier button with label `(10%)` (no currency amount) returns an absent
regular price: the default is clobbered instead of retained. -/
theorem claim_C5_cex :
    RM.scrape_tier_data
        (FetchResult.ok
          (Soup.mk true
            [TierButton.mk (some "1") (some "Buy 1") (some "$9.99"),
             TierButton.mk (some "10") (some "Buy 10") (some "(10%)")]
            none none none))
        (some 10)
      = RMResult.record none (some "10:10") none
    ∧ (RM.rmLoop
        [TierButton.mk (some "1") (some "Buy 1") (some "$9.99"),
         TierButton.mk (some "10") (some "Buy 10") (some "(10%)")] [] none).2
      = some "$9.99" := by decide

/-- Claim C5 amended: the quantity-targeted lookup retains the default
when no tier button matches or the matching button has no discount child
(the local exception path), and the initial variant returns absent in all
miss cases; but when a matching button exists whose discount label carries
no currency amount, the requests-main override replaces the default with
an absent value rather than retaining it. -/
theorem claim_C5 (soup : Soup) (q : Nat) (d : Option String) :
    (selectByDataMin soup q = none →
      RM.quantity_override soup q d = d ∧ Initial.get_price_for_quantity soup q = none)
    ∧ (∀ tb, selectByDataMin soup q = some tb → tb.discountInfo = none →
        RM.quantity_override soup q d = d ∧ Initial.get_price_for_quantity soup q = none)
    ∧ (∀ tb lbl, selectByDataMin soup q = some tb → tb.discountInfo = some lbl →
        searchDollar lbl.toList = none →
        RM.quantity_override soup q d = none
        ∧ Initial.get_price_for_quantity soup q = none) := by
  refine ⟨?_, ?_, ?_⟩
  · intro h
    exact ⟨by simp [RM.quantity_override, h], by simp [Initial.get_price_for_quantity, h]⟩
  · intro tb h hd
    exact ⟨by simp [RM.quantity_override, h, hd],
      by simp [Initial.get_price_for_quantity, h, hd]⟩
  · intro tb lbl h hd hs
    have hs2 : searchDollar lbl.data = none := hs
    exact ⟨by simp [RM.quantity_override, h, hd, hs2],
      by simp [Initial.get_price_for_quantity, Initial.extract_price_amount, h, hd, hs2]⟩

/-- Witness for claim C5 at a page with no tier buttons: the lookup misses
and the default is retained. -/
theorem claim_C5_witness :
    RM.quantity_override (Soup.mk true [] none none none) 3 (some "9.99") = some "9.99"
    ∧ Initial.get_price_for_quantity (Soup.mk true [] none none none) 3 = none :=
  (claim_C5 (Soup.mk true [] none none none) 3 (some "9.99")).1 rfl

/-- Claim C6 counterexample: on the fractional label `(3.99%)` the legacy
extractor of `requests_main.py` finds no percentage at all and returns the
raw text as a non-discount fallback, while the claim demands the floored
value 3 from every discount extractor; the final extractor does floor. -/
theorem claim_C6_cex :
    RM.extract_discount_per_tier "(3.99%)" = ("(3.99%)", false)
    ∧ Final.extract_discount_info "(3.99%)" = some "3%" := by decide

/-- Claim C6 amended: the final extractor floors every fractional label
`(N.M%)` to the integer part of N, while the legacy requests-main
extractor recognizes only integer percentages and treats any fractional
label as non-discount fallback text; text with no opening parenthesis
yields no discount from the final extractor. -/
theorem claim_C6 (ds1 ds2 : List Char)
    (h1 : ds1 ≠ []) (h1d : ∀ c ∈ ds1, isDig c = true)
    (h2d : ∀ c ∈ ds2, isDig c = true) :
    Final.extract_discount_info (String.mk ('(' :: (ds1 ++ ('.' :: (ds2 ++ ['%', ')'])))))
      = some (toString (digitsToNat ds1) ++ "%")
    ∧ (RM.extract_discount_per_tier
        (String.mk ('(' :: (ds1 ++ ('.' :: (ds2 ++ ['%', ')'])))))).2 = false
    ∧ ∀ (text : String), (∀ c ∈ text.toList, c ≠ '(') →
        Final.extract_discount_info text = none := by
  have hdot : isDig '.' = false := by decide
  have hpct : isDig '%' = false := by decide
  have hA : (ds1 ++ ('.' :: (ds2 ++ ['%', ')']))).takeWhile isDig = ds1 := by
    rw [takeWhile_all_append isDig ds1 _ h1d]
    simp [List.takeWhile_cons, hdot]
  have hB : (ds1 ++ ('.' :: (ds2 ++ ['%', ')']))).dropWhile isDig
      = '.' :: (ds2 ++ ['%', ')']) := by
    rw [dropWhile_all_append isDig ds1 _ h1d]
    simp [List.dropWhile_cons, hdot]
  have hC : (ds2 ++ ['%', ')']).dropWhile isDig = ['%', ')'] := by
    rw [dropWhile_all_append isDig ds2 _ h2d]
    simp [List.dropWhile_cons, hpct]
  have hfrac : searchPercentFrac ('(' :: (ds1 ++ ('.' :: (ds2 ++ ['%', ')']))))
      = some (digitsToNat ds1) := by
    have hAt : percentFracAt ('(' :: (ds1 ++ ('.' :: (ds2 ++ ['%', ')']))))
        = some (digitsToNat ds1) := by
      simp only [percentFracAt, hA, hB, hC]
      simp [h1]
    simp [searchPercentFrac, hAt]
  have hint : searchPercentInt ('(' :: (ds1 ++ ('.' :: (ds2 ++ ['%', ')'])))) = none := by
    have hAt : percentIntAt ('(' :: (ds1 ++ ('.' :: (ds2 ++ ['%', ')'])))) = none := by
      simp only [percentIntAt, hA, hB]
      simp [h1]
    have hnp : ∀ c ∈ ds1 ++ ('.' :: (ds2 ++ ['%', ')'])), c ≠ '(' := by
      intro c hc
      rcases List.mem_append.mp hc with h | h
      · exact isDig_ne_paren c (h1d c h)
      · rcases List.mem_cons.mp h with h | h
        · subst h; decide
        · rcases List.mem_append.mp h with h | h
          · exact isDig_ne_paren c (h2d c h)
          · rcases List.mem_cons.mp h with h | h
            · subst h; decide
            · rcases List.mem_cons.mp h with h | h
              · subst h; decide
              · simp at h
    simp [searchPercentInt, hAt, searchPercentInt_none _ hnp]
  have htl : (String.mk ('(' :: (ds1 ++ ('.' :: (ds2 ++ ['%', ')']))))).toList
      = '(' :: (ds1 ++ ('.' :: (ds2 ++ ['%', ')']))) := rfl
  refine ⟨?_, ?_, ?_⟩
  · rw [Final.extract_discount_info, htl, hfrac]
  · rw [RM.extract_discount_per_tier, htl, hint]
  · intro text ht
    rw [Final.extract_discount_info, searchPercentFrac_none text.toList ht]

/-- Witness for claim C6 at the fractional label `(12.5%)` and the
percentage-free text `50% off`. -/
theorem claim_C6_witness :
    Final.extract_discount_info (String.mk ['(', '1', '2', '.', '5', '%', ')'])
      = some (toString (digitsToNat ['1', '2']) ++ "%")
    ∧ (RM.extract_discount_per_tier (String.mk ['(', '1', '2', '.', '5', '%', ')'])).2 = false
    ∧ Final.extract_discount_info "50% off" = none := by
  have h := claim_C6 ['1', '2'] ['5'] (by decide) (by decide) (by decide)
  exact ⟨h.1, h.2.1, h.2.2 "50% off" (by decide)⟩

/-- Claim C7: the tier builder output is the order- and
duplicate-preserving filterMap of the per-button outcome; the spec
round-trip page with rows `Buy 10 (5%)` and `Buy 25 (10%)` serializes to
exactly "10:5,25:10"; duplicate rows are preserved. -/
theorem claim_C7 :
    (∀ (soup : Soup),
      Final.build_tier_list soup = soup.tierButtons.filterMap Final.tierEntryOf)
    ∧ Final.scrape_tier_data
        (FetchResult.ok
          (Soup.mk true
            [TierButton.mk none (some "Buy 10") (some "(5%)"),
             TierButton.mk none (some "Buy 25") (some "(10%)")] none none none))
        none
      = ScrapeRecord.mk none none (some "10:5,25:10")
    ∧ Final.build_tier_list
        (Soup.mk true
          [TierButton.mk none (some "Buy 10") (some "(5%)"),
           TierButton.mk none (some "Buy 10") (some "(5%)")] none none none)
      = [Tier.mk 10 "5%", Tier.mk 10 "5%"] := by
  refine ⟨?_, by decide, by decide⟩
  intro soup
  simpa [Final.build_tier_list] using buildLoop_eq_filterMap soup.tierButtons []

/-- Fetch oracle for the claim C8 witness: every URL fails with a
transport error. -/
def c8fetch : String → FetchResult := fun _ => FetchResult.reqErr "x"

/-- Data frame for the claim C8 witness: the designated columns sit at
positions 8 and 9, one all-missing row. -/
def c8df : Df :=
  Df.mk ["URL", "Name", "c2", "c3", "c4", "c5", "c6", "c7",
    "PLK Regular price", "PLK Percentage Tiered Prices"] [fun _ => Cell.na]

/-- Claim C8: a batch run is the row-wise map of the per-row update ---
row count and relative order are preserved and the output row at an index
depends only on the input row there --- and each per-row update leaves
every column other than the three designated output columns unchanged.
For the requests-main variant the statement holds provided positional
columns 8 and 9 are the designated ones, as the source comments assert of
the input workbook. -/
theorem claim_C8 (fetch : String → FetchResult) (df : Df) :
    ((Final.process_excel_file fetch df).rows
        = df.rows.map (Final.processRow fetch df.header)
      ∧ ∀ (row : Row) (col : String),
          col ≠ "PLK Regular price" → col ≠ "PLK Sale price" →
          col ≠ "PLK Percentage Tiered Prices" →
          Final.processRow fetch df.header row col = row col)
    ∧ (df.header.getD 8 "" = "PLK Regular price" →
        df.header.getD 9 "" = "PLK Percentage Tiered Prices" →
        (RM.process_excel_file fetch df).rows
            = df.rows.map (RM.processRow fetch df.header)
          ∧ ∀ (row : Row) (col : String),
              col ≠ "PLK Regular price" → col ≠ "PLK Percentage Tiered Prices" →
              RM.processRow fetch df.header row col = row col) := by
  constructor
  · exact ⟨batchFold_eq_map _ _,
      fun row col h1 h2 h3 => fs_processRow_frame fetch df.header row col h1 h2 h3⟩
  · intro h8 h9
    exact ⟨batchFold_eq_map _ _,
      fun row col h1 h3 => rm_processRow_frame fetch df.header row col h8 h9 h1 h3⟩

/-- Witness for claim C8 at the concrete frame and fetch oracle. -/
theorem claim_C8_witness :
    (Final.process_excel_file c8fetch c8df).rows
      = c8df.rows.map (Final.processRow c8fetch c8df.header)
    ∧ Final.processRow c8fetch c8df.header (fun _ => Cell.na) "Name"
      = (fun _ => Cell.na : Row) "Name"
    ∧ (RM.process_excel_file c8fetch c8df).rows
      = c8df.rows.map (RM.processRow c8fetch c8df.header)
    ∧ RM.processRow c8fetch c8df.header (fun _ => Cell.na) "Name"
      = (fun _ => Cell.na : Row) "Name" := by
  have h := claim_C8 c8fetch c8df
  exact ⟨h.1.1, h.1.2 _ "Name" (by decide) (by decide) (by decide),
    (h.2 rfl rfl).1, (h.2 rfl rfl).2 _ "Name" (by decide) (by decide)⟩

/-- Claim C9 counterexample: the final extractor converts its input with
str before matching, so the non-text Python integer 250 yields 250 ---
not absent, as the claim requires of every non-text input. -/
theorem claim_C9_cex :
    Final.extract_quantity_from_name (PyVal.pint 250) = some 250 := by decide

/-- Claim C9 amended: for text the extractor returns the leading digit
run, or absent when the text begins with a non-digit or is empty; the
final variant first applies str to non-text input, so a value whose
rendering begins with a digit (an integer) yields that number while NaN
and None yield absent; the requests-main extractor returns absent for
every non-text input without raising. -/
theorem claim_C9 :
    (∀ (ds rest : List Char), ds ≠ [] → (∀ c ∈ ds, isDig c = true) →
        (∀ c cs, rest = c :: cs → isDig c = false) →
        Final.extract_quantity_from_name (PyVal.pstr (String.mk (ds ++ rest)))
          = some (digitsToNat ds))
    ∧ (∀ (c : Char) (cs : List Char), isDig c = false →
        Final.extract_quantity_from_name (PyVal.pstr (String.mk (c :: cs))) = none)
    ∧ Final.extract_quantity_from_name (PyVal.pstr "") = none
    ∧ Final.extract_quantity_from_name PyVal.pnan = none
    ∧ Final.extract_quantity_from_name PyVal.pnone = none
    ∧ (∀ (n : Nat),
        RM.extract_quantity_number_from_the_name_column_at_the_beginning
          (PyVal.pint n) = none)
    ∧ RM.extract_quantity_number_from_the_name_column_at_the_beginning PyVal.pnan = none
    ∧ RM.extract_quantity_number_from_the_name_column_at_the_beginning PyVal.pnone
        = none := by
  refine ⟨?_, ?_, by decide, by decide, by decide, fun n => rfl, rfl, rfl⟩
  · intro ds rest hne hd hrest
    have ht : (ds ++ rest).takeWhile isDig = ds := by
      rw [takeWhile_all_append isDig ds rest hd]
      rcases rest with _ | ⟨c, cs⟩
      · simp
      · simp [List.takeWhile_cons, hrest c cs rfl]
    show matchLeadingDigits (ds ++ rest) = some (digitsToNat ds)
    simp [matchLeadingDigits, ht, hne]
  · intro c cs hc
    show matchLeadingDigits (c :: cs) = none
    simp [matchLeadingDigits, List.takeWhile_cons, hc]

/-- Witness for claim C9 at the name `250 Caps`, a non-digit-leading
name, and the non-text integer 250 in the requests-main variant. -/
theorem claim_C9_witness :
    Final.extract_quantity_from_name
        (PyVal.pstr (String.mk (['2', '5', '0'] ++ [' ', 'C', 'a', 'p', 's'])))
      = some (digitsToNat ['2', '5', '0'])
    ∧ Final.extract_quantity_from_name (PyVal.pstr (String.mk ('C' :: "aps".toList)))
      = none
    ∧ RM.extract_quantity_number_from_the_name_column_at_the_beginning (PyVal.pint 250)
      = none := by
  refine ⟨claim_C9.1 ['2', '5', '0'] [' ', 'C', 'a', 'p', 's'] (by decide) (by decide) ?_,
    claim_C9.2.1 'C' "aps".toList (by decide),
    claim_C9.2.2.2.2.2.1 250⟩
  intro c cs hcc
  cases hcc
  decide

/-- Claim C10: the final page-scraping entry point is a total function
into pricing records (the Lean type of the embedding); a transport
failure and a parsing failure are returned encoded as values inside the
record, and an internal resolver failure degrades to absent prices rather
than escaping to the caller. -/
theorem claim_C10 (f : FetchResult) (q : Option Nat) :
    (∀ e, f = FetchResult.reqErr e →
        Final.scrape_tier_data f q
          = ScrapeRecord.mk none none (some ("Request error: " ++ e)))
    ∧ (∀ e, f = FetchResult.parseErr e →
        Final.scrape_tier_data f q
          = ScrapeRecord.mk none none (some ("Parsing error: " ++ e)))
    ∧ (∀ soup e, f = FetchResult.ok soup → Final.grasp_body soup = Except.error e →
        Final.get_regular_and_sales_price soup = (none, none)) := by
  refine ⟨?_, ?_, ?_⟩
  · intro e he
    subst he
    rfl
  · intro e he
    subst he
    rfl
  · intro soup e _ hg
    simp [Final.get_regular_and_sales_price, hg]

/-- Witness for claim C10 at a failing fetch and a page with no price
spans. -/
theorem claim_C10_witness :
    Final.scrape_tier_data (FetchResult.reqErr "boom") none
      = ScrapeRecord.mk none none (some ("Request error: " ++ "boom"))
    ∧ Final.get_regular_and_sales_price (Soup.mk false [] none none none)
      = (none, none) := by
  have h := claim_C10 (FetchResult.reqErr "boom") none
  have h2 := claim_C10 (FetchResult.ok (Soup.mk false [] none none none)) none
  exact ⟨h.1 "boom" rfl, h2.2.2 _ attrErr rfl rfl⟩
